import Mathlib

/-!
# Harmonic Hunter — shallow embedding and verification

A Lean 4 embedding of the signal-analysis and risk-scoring core of the
Harmonic Hunter pipeline (`harmonic_hunter` Python package), together with
theorems settling the specification claims about it.

Modelling conventions:
* Python floats are modelled by `ℚ` wherever the code only does field
  arithmetic and comparisons; values produced through `sqrt`
  (THD, triplen index, crest factor, variability) live in `ℝ`.
* Python lists / pandas columns are Lean `List`s; a pandas cell that may be
  NaN is an `Option`.
* The scoring functions are generic over a linear ordered field so that the
  same definition serves both exact rational inputs and the real-valued
  metrics of the pipeline.
* Human-readable findings interpolate a metric value into a fixed template;
  they are embedded as an inductive carrying the interpolated value, one
  constructor per f-string template of the source (the literal fragments of
  the template are recovered by `Finding.fragments`).
-/

namespace HarmonicHunter

/-! ## risk/thresholds.py — the `THRESHOLDS` dict -/

/-! The `THRESHOLDS` dict from `harmonic_hunter/risk/thresholds.py`, one
named constant per key. -/

namespace THRESHOLDS

def THD_WARN : ℚ := 15

def THD_CRITICAL : ℚ := 20

def TRIPLEN_WARN : ℚ := 20

def TRIPLEN_CRITICAL : ℚ := 30

def FIFTH_WARN : ℚ := 12

def FIFTH_CRITICAL : ℚ := 15

def CREST_WARN : ℚ := 5/2

def CREST_CRITICAL : ℚ := 3

def VARIABILITY_WARN : ℚ := 25

def VARIABILITY_CRITICAL : ℚ := 40

end THRESHOLDS

/-! ## risk/scoring.py -/

/-- `_band` from `harmonic_hunter/risk/scoring.py`: qualitative band as a
function of the integer score. -/
def _band (score : ℤ) : String :=
  if score ≤ 30 then "Safe"
  else if score ≤ 60 then "Monitor"
  else if score ≤ 80 then "Action Required"
  else "Immediate Risk"

/-- `_band_from_score` from `harmonic_hunter/main.py` (same mapping,
duplicated in the source). -/
def _band_from_score (score : ℤ) : String :=
  if score ≤ 30 then "Safe"
  else if score ≤ 60 then "Monitor"
  else if score ≤ 80 then "Action Required"
  else "Immediate Risk"

/-- One human-readable finding string of `scoring.py`, embedded as the
f-string template it instantiates plus the interpolated metric value. -/
inductive Finding (α : Type) where
  | thdCritical (thd : α)
  | thdWarn (thd : α)
  | triplenCritical (triplen : α)
  | triplenWarn (triplen : α)
  | fifthCritical (fifth_pct : α)
  | fifthWarn (fifth_pct : α)
  | crestCritical (crest : α)
  | crestWarn (crest : α)
  | variabilityCritical (variability : α)
  | variabilityWarn (variability : α)
  deriving DecidableEq, Repr

/-- The literal text fragments of each finding's f-string template
(the pieces around the interpolated `{value:.1f}` / `{value:.2f}` hole),
verbatim from `scoring.py`. -/
def Finding.fragments {α : Type} : Finding α → List String
  | .thdCritical _ =>
      ["THD is critical (", "%). Elevated transformer heating and nuisance trips are more likely."]
  | .thdWarn _ =>
      ["THD is elevated (", "%). Monitor; mitigation may be needed if persistent."]
  | .triplenCritical _ =>
      ["Triplen index is critical (", "%). Neutral overheating/fire risk elevated under non-linear loading."]
  | .triplenWarn _ =>
      ["Triplen index is high (", "%). Neutral loading risk rising."]
  | .fifthCritical _ =>
      ["5th harmonic is critical (", "% of fundamental). Capacitor/UPS stress risk elevated."]
  | .fifthWarn _ =>
      ["5th harmonic is elevated (", "% of fundamental)."]
  | .crestCritical _ =>
      ["Crest factor is critical (", "). Strong evidence of pulsed non-linear currents and higher RMS heating."]
  | .crestWarn _ =>
      ["Crest factor is elevated (", "). Indicates non-linear load behavior."]
  | .variabilityCritical _ =>
      ["Current variability is critical (", "%). Strong non-linear/pulsed load signature; harmonic risk elevated."]
  | .variabilityWarn _ =>
      ["Current variability is elevated (", "%). Non-linear load behavior likely."]

/-- `RiskResult` dataclass from `harmonic_hunter/risk/scoring.py`. -/
structure RiskResult (α : Type) where
  score_0_100 : ℤ
  band : String
  findings : List (Finding α)
  top_risks : List String
  deriving DecidableEq, Repr

variable {α : Type} [LinearOrderedField α]

/-- `score_risk_fft` from `harmonic_hunter/risk/scoring.py`: the
waveform-mode scorer.  Each metric contributes points through a
critical/warn/else ladder; the breached-threshold branches also append a
finding and a top-risk tag.  The final score is clamped with `min(100, ·)`
and the top-risk list truncated with `top[:3]`. -/
def score_risk_fft [∀ a b : α, Decidable (a ≤ b)] (thd triplen fifth_pct : α) : RiskResult α :=
  -- THD (0-40)
  let r1 : ℤ × List (Finding α) × List String :=
    if thd ≥ (THRESHOLDS.THD_CRITICAL : ℚ) then
      (40, [.thdCritical thd], ["High THD → overheating/nuisance trips"])
    else if thd ≥ (THRESHOLDS.THD_WARN : ℚ) then
      (25, [.thdWarn thd], ["Elevated THD trend"])
    else (10, [], [])
  -- Triplen (0-35)
  let r2 : ℤ × List (Finding α) × List String :=
    if triplen ≥ (THRESHOLDS.TRIPLEN_CRITICAL : ℚ) then
      (35, [.triplenCritical triplen], ["Triplen harmonics → neutral overheating risk"])
    else if triplen ≥ (THRESHOLDS.TRIPLEN_WARN : ℚ) then
      (20, [.triplenWarn triplen], ["Triplen harmonics trending high"])
    else (8, [], [])
  -- 5th harmonic (0-25)
  let r3 : ℤ × List (Finding α) × List String :=
    if fifth_pct ≥ (THRESHOLDS.FIFTH_CRITICAL : ℚ) then
      (25, [.fifthCritical fifth_pct], ["5th harmonic → capacitor/UPS stress"])
    else if fifth_pct ≥ (THRESHOLDS.FIFTH_WARN : ℚ) then
      (15, [.fifthWarn fifth_pct], ["5th harmonic elevated"])
    else (5, [], [])
  let score : ℤ := min 100 (r1.1 + r2.1 + r3.1)
  { score_0_100 := score
    band := _band score
    findings := r1.2.1 ++ r2.2.1 ++ r3.2.1
    top_risks := (r1.2.2 ++ r2.2.2 ++ r3.2.2).take 3 }

/-- `score_risk_trend` from `harmonic_hunter/risk/scoring.py`: the
trend-mode scorer (crest factor and variability ladders). -/
def score_risk_trend [∀ a b : α, Decidable (a ≤ b)] (crest variability : α) : RiskResult α :=
  -- Crest factor (0-55)
  let r1 : ℤ × List (Finding α) × List String :=
    if crest ≥ (THRESHOLDS.CREST_CRITICAL : ℚ) then
      (55, [.crestCritical crest], ["High crest factor → pulsed non-linear load risk"])
    else if crest ≥ (THRESHOLDS.CREST_WARN : ℚ) then
      (35, [.crestWarn crest], ["Elevated crest factor trend"])
    else (15, [], [])
  -- Variability (0-45)
  let r2 : ℤ × List (Finding α) × List String :=
    if variability ≥ (THRESHOLDS.VARIABILITY_CRITICAL : ℚ) then
      (45, [.variabilityCritical variability], ["High variability → harmonic risk signature"])
    else if variability ≥ (THRESHOLDS.VARIABILITY_WARN : ℚ) then
      (25, [.variabilityWarn variability], ["Variability trending high"])
    else (10, [], [])
  let score : ℤ := min 100 (r1.1 + r2.1)
  { score_0_100 := score
    band := _band score
    findings := r1.2.1 ++ r2.2.1
    top_risks := (r1.2.2 ++ r2.2.2).take 3 }

/-! ## Generic helpers used by the embedding

`pySorted` models Python's `sorted` / pandas `sort_values`: a stable sort
with respect to a boolean `le` (implemented as insertion sort, which is
stable). `strLeB` is Python's string ordering (lexicographic by code
point). `listMeanQ` is `np.mean` on an exact-rational signal. `pyRound`
is Python 3 `round` (round half to even). -/

def insert1 {α : Type} (le : α → α → Bool) (x : α) : List α → List α
  | [] => [x]
  | y :: ys => if le x y then x :: y :: ys else y :: insert1 le x ys

/-- Stable sort by `le`; models Python `sorted` / pandas `sort_values`. -/
def pySorted {α : Type} (le : α → α → Bool) : List α → List α
  | [] => []
  | x :: xs => insert1 le x (pySorted le xs)

/-- Lexicographic (code-point) ordering on char lists, as Python compares
strings. -/
def lexLeB : List Char → List Char → Bool
  | [], _ => true
  | _ :: _, [] => false
  | c :: cs, d :: ds =>
      if c.val < d.val then true
      else if d.val < c.val then false
      else lexLeB cs ds

/-- Python string `<=` (code-point lexicographic). -/
def strLeB (a b : String) : Bool := lexLeB a.data b.data

/-- `np.mean` over an exact-rational signal. -/
def listMeanQ (l : List ℚ) : ℚ := l.sum / l.length

/-- Python 3 `round` to an integer: round half to even. -/
def pyRound (q : ℚ) : ℤ :=
  let f := ⌊q⌋
  let r := q - f
  if r < 1/2 then f
  else if 1/2 < r then f + 1
  else if f % 2 = 0 then f else f + 1

/-- pandas `Series.median`: middle element of the sorted values, or the
mean of the two middle elements for an even count. -/
def medianQ (l : List ℚ) : ℚ :=
  let s := pySorted (fun a b => a ≤ b) l
  let n := s.length
  if n = 0 then 0
  else if n % 2 = 1 then s.getD (n / 2) 0
  else (s.getD (n / 2 - 1) 0 + s.getD (n / 2) 0) / 2

/-! ## signal/validity.py -/

/-- `estimate_sample_rate` from `harmonic_hunter/signal/validity.py`:
median of consecutive timestamp deltas (seconds, after sorting), inverted;
0 for fewer than 3 timestamps, an empty delta list, or a non-positive
median. -/
def estimate_sample_rate (timestamps : List ℚ) : ℚ :=
  let ts := pySorted (fun a b => a ≤ b) timestamps
  if ts.length < 3 then 0
  else
    let deltas := (ts.zip ts.tail).map (fun p => p.2 - p.1)
    if deltas.isEmpty then 0
    else
      let median_dt := medianQ deltas
      if median_dt ≤ 0 then 0 else 1 / median_dt

/-- `fft_is_valid` from `harmonic_hunter/signal/validity.py`:
`sample_rate_hz >= 20.0 * fundamental_hz`. -/
def fft_is_valid (sample_rate_hz : ℚ) (fundamental_hz : ℚ) : Bool :=
  sample_rate_hz ≥ 20 * fundamental_hz

/-! ## signal/metrics.py

The four metric functions. Harmonic spectra are association lists
`List (ℕ × ℚ)` (the Python `dict[int, float]`, `dict.get(k, 0.0)` being
`(·.lookup k).getD 0`); signals are `List ℚ`. The results live in `ℝ`
because of the square roots; every near-zero division guard compares an
exact rational against the fixed epsilon `1e-12`, exactly as the source
does, and short-circuits to `0` before any division. -/

/-- `thd_percent` from `harmonic_hunter/signal/metrics.py`:
`sqrt(sum of squared non-fundamental magnitudes) / amp[1] * 100`, guarded
by `amp[1] <= 1e-12 → 0`. -/
noncomputable def thd_percent (harmonics : List (ℕ × ℚ)) : ℝ :=
  let i1 : ℚ := (harmonics.lookup 1).getD 0
  if i1 ≤ 1e-12 then 0
  else
    let s : ℚ := ((harmonics.filter (fun p => p.1 ≠ 1)).map (fun p => p.2 ^ 2)).sum
    (Real.sqrt (s : ℝ) / (i1 : ℝ)) * 100

/-- `triplen_index_percent` from `harmonic_hunter/signal/metrics.py`: the
same formula restricted to harmonic orders that are nonzero multiples
of 3. -/
noncomputable def triplen_index_percent (harmonics : List (ℕ × ℚ)) : ℝ :=
  let i1 : ℚ := (harmonics.lookup 1).getD 0
  if i1 ≤ 1e-12 then 0
  else
    let s : ℚ := ((harmonics.filter (fun p => p.1 % 3 = 0 ∧ p.1 ≠ 0)).map (fun p => p.2 ^ 2)).sum
    (Real.sqrt (s : ℝ) / (i1 : ℝ)) * 100

/-- The 5th-harmonic ratio computed inline in `harmonic_hunter/main.py`
(`fifth_pct = 0.0 if i1 <= 1e-12 else (harms.get(5, 0.0) / i1) * 100.0`). -/
def fifth_pct_of (harmonics : List (ℕ × ℚ)) : ℚ :=
  let i1 : ℚ := (harmonics.lookup 1).getD 0
  if i1 ≤ 1e-12 then 0
  else ((harmonics.lookup 5).getD 0 / i1) * 100

/-- `crest_factor` from `harmonic_hunter/signal/metrics.py`:
`max(|signal|) / rms(signal)`; 0 for an empty signal or `rms <= 1e-12`. -/
noncomputable def crest_factor (signal : List ℚ) : ℝ :=
  if signal = [] then 0
  else
    let rms : ℝ := Real.sqrt ((listMeanQ (signal.map (fun x => x * x)) : ℚ) : ℝ)
    if rms ≤ 1e-12 then 0
    else
      let peak : ℚ := ((signal.map (fun x => |x|)).max?).getD 0
      (peak : ℝ) / rms

/-- `current_variability_percent` from `harmonic_hunter/signal/metrics.py`:
`std(signal) / |mean(signal)| * 100`; 0 for an empty signal or
`|mean| <= 1e-12`.  `np.std` is the population standard deviation. -/
noncomputable def current_variability_percent (signal : List ℚ) : ℝ :=
  if signal = [] then 0
  else
    let mean : ℚ := listMeanQ signal
    if |mean| ≤ 1e-12 then 0
    else
      let variance : ℚ := listMeanQ (signal.map (fun x => (x - mean) ^ 2))
      (Real.sqrt (variance : ℝ) / |(mean : ℝ)|) * 100

/-! ## recommend/rules.py -/

/-- `recommendations_fft` from `harmonic_hunter/recommend/rules.py`:
threshold-driven recommendation strings, checked in the order
triplen → 5th harmonic → THD, with a default when none fire. -/
def recommendations_fft [∀ a b : α, Decidable (a ≤ b)] (thd triplen fifth_pct : α) :
    List String :=
  let recs : List String :=
    (if triplen ≥ (30 : α) then
      ["Priority: Evaluate active harmonic filtering focused on triplen mitigation; verify neutral conductor sizing and thermal margins."]
    else if triplen ≥ (20 : α) then
      ["Trend triplen harmonics; review neutral loading during peak IT load windows and plan mitigation if persistent."]
    else []) ++
    (if fifth_pct ≥ (15 : α) then
      ["Priority: Evaluate detuned capacitor banks / filtering tuned for 5th harmonic to reduce capacitor and UPS stress."]
    else if fifth_pct ≥ (12 : α) then
      ["Inspect capacitor bank health and reactive compensation settings; elevated 5th harmonic can accelerate wear."]
    else []) ++
    (if thd ≥ (20 : α) then
      ["Priority: Perform a power quality audit; implement mitigation to reduce THD and associated transformer heating."]
    else if thd ≥ (15 : α) then
      ["Monitor THD and thermal loading; consider mitigation if persistent during peak periods."]
    else [])
  if recs = [] then ["No urgent mitigation required based on thresholds; continue periodic monitoring."]
  else recs

/-- `recommendations_trend` from `harmonic_hunter/recommend/rules.py`. -/
def recommendations_trend [∀ a b : α, Decidable (a ≤ b)] (crest variability : α) :
    List String :=
  let recs : List String :=
    (if crest ≥ (3 : α) then
      ["Priority: Investigate non-linear load contributions (UPS rectifiers/SMPS/LED drivers). Consider harmonic filtering feasibility study."]
    else if crest ≥ (5/2 : α) then
      ["Crest factor elevated; review load mix and UPS operating mode. Consider targeted power quality measurements."]
    else []) ++
    (if variability ≥ (40 : α) then
      ["Priority: Current variability indicates pulsed load behavior; schedule a power quality capture (true waveform) during peak load."]
    else if variability ≥ (25 : α) then
      ["Trend current variability over time; investigate spikes and correlate with load changes and breaker events."]
    else [])
  if recs = [] then ["No urgent mitigation required based on trend indicators; continue periodic monitoring."]
  else recs

/-- The loop of `dedupe_preserve_order`, with the `seen` set as an
accumulator. -/
def dedupe_go (seen : List String) : List String → List String
  | [] => []
  | x :: xs => if x ∈ seen then dedupe_go seen xs else x :: dedupe_go (x :: seen) xs

/-- `dedupe_preserve_order` from `harmonic_hunter/recommend/rules.py`:
keep the first occurrence of each string, preserving order. -/
def dedupe_preserve_order (items : List String) : List String := dedupe_go [] items

/-! ## main.py — the pipeline

`run_pipeline` is embedded as `run_report`, the function from the cleaned
canonical table (plus configuration, the per-phase harmonic spectra
produced by the FFT engine, and the outcome of the baseline sub-pipeline)
to every report field the pipeline produces.  Presentation-only side
effects (PNG charts, the PDF renderer, the run log) are outside the
embedding; every string that reaches the report is modelled.  Summary
lines are f-strings interpolating numbers into fixed templates; they are
embedded by the inductive `Line`, one constructor per template, carrying
the interpolated values (`Line.strings` recovers the textual pieces). -/

/-- `_exec_verdict` from `harmonic_hunter/main.py`. -/
def _exec_verdict (score : ℤ) : String :=
  if score ≤ 30 then
    "No immediate power-quality risk detected. Observed load behavior is consistent with stable operation."
  else if score ≤ 60 then
    "Early warning indicators detected. Continued monitoring is recommended to prevent escalation during peak demand or future expansion."
  else
    "Elevated power-quality risk detected. Observed conditions may contribute to equipment stress if left unaddressed."

/-- Python `str.upper()` (structurally, over the char list). -/
def pyUpper (s : String) : String := String.mk (s.data.map Char.toUpper)

/-- The rank of a phase label in `_safe_phase_order`
(`order.get(str(p).upper(), 99)`). -/
def phaseRank (p : String) : ℕ :=
  match pyUpper p with
  | "A" => 0
  | "B" => 1
  | "C" => 2
  | "N" => 3
  | _ => 99

/-- `_safe_phase_order` from `harmonic_hunter/main.py`: sort phases by the
key `(order.get(p.upper(), 99), str(p))`. -/
def _safe_phase_order (phases : List String) : List String :=
  pySorted
    (fun p q =>
      decide (phaseRank p < phaseRank q) ||
        (decide (phaseRank p = phaseRank q) && strLeB p q))
    phases

/-- One row of the cleaned canonical table (after `load_csv`,
`normalize_timeseries` and `_validate_and_clean`): a timestamp in seconds,
a phase label and a current in amps. -/
structure Row where
  timestamp : ℚ
  phase : String
  current_a : ℚ
  deriving DecidableEq, Repr

/-- One summary line of the report: a constructor per f-string template in
`run_pipeline`, carrying the interpolated values. -/
inductive Line where
  | facility (score : ℤ) (band : String)
  | samplingRate (sample_rate_hz : ℚ)
  | analysisMode (mode : String)
  | phaseFft (phase : String) (score : ℤ) (band : String)
      (thd triplen fifth_pct crest variability : ℝ)
  | phaseTrend (phase : String) (score : ℤ) (band : String)
      (crest variability : ℝ)
  | phaseFinding (phase : String) (f : Finding ℝ)

/-- All textual pieces of a summary line: the literal fragments of its
f-string template plus any interpolated string values. -/
def Line.strings : Line → List String
  | .facility _ band =>
      ["Facility risk score: ", "/100 (", ")", band]
  | .samplingRate _ =>
      ["Estimated sampling rate: ~", " Hz"]
  | .analysisMode mode =>
      ["Analysis mode: ", mode]
  | .phaseFft phase _ band _ _ _ _ _ =>
      ["Phase ", ": Risk ", "/100 (", ") | THD ", "% | Triplen ", "% | 5th ",
        "% | Crest ", " | Variability ", "%", phase, band]
  | .phaseTrend phase _ band _ _ =>
      ["Phase ", ": Risk ", "/100 (", ") | Crest ", " | Variability ", "%", phase, band]
  | .phaseFinding phase f =>
      ["Phase ", ": ", phase] ++ f.fragments

/-- What the per-phase loop body of `run_pipeline` accumulates for one
scorable phase. -/
structure PhaseOut where
  phase : String
  risk : RiskResult ℝ
  recs : List String
  line : Line

/-- The per-phase signal: currents of the rows with the given phase label,
in table order (`df[df["phase"] == phase]["current_a"]`). -/
def sig_of (rows : List Row) (p : String) : List ℚ :=
  (rows.filter (fun r => r.phase = p)).map (fun r => r.current_a)

/-- The body of the per-phase loop of `run_pipeline` for a scorable phase:
metrics, mode-dependent scoring, recommendations, and the summary line. -/
noncomputable def phase_out (fft_ok : Bool) (hbp : String → List (ℕ × ℚ))
    (p : String) (sig : List ℚ) : PhaseOut :=
  let cf := crest_factor sig
  let variability := current_variability_percent sig
  if fft_ok then
    let harms := hbp p
    let thd := thd_percent harms
    let trip := triplen_index_percent harms
    let fifth : ℝ := ((fifth_pct_of harms : ℚ) : ℝ)
    let risk := score_risk_fft thd trip fifth
    { phase := p, risk := risk
      recs := recommendations_fft thd trip fifth
      line := .phaseFft p risk.score_0_100 risk.band thd trip fifth cf variability }
  else
    let risk := score_risk_trend cf variability
    { phase := p, risk := risk
      recs := recommendations_trend cf variability
      line := .phaseTrend p risk.score_0_100 risk.band cf variability }

/-- Every field `run_pipeline` produces for the report (the arguments of
`build_pdf_report` plus the intermediate aggregates the claims speak
about). -/
structure Report where
  report_mode : String
  sample_rate_hz : ℚ
  fft_ok : Bool
  summary_lines : List Line
  findings_all : List (String × Finding ℝ)
  top_risks : List String
  key_observations : List String
  recs_all : List String
  recommendations : List String
  per_phase_scores : List ℤ
  facility_score : ℤ
  band : String
  executive_verdict : String
  why_lines : List String
  baseline_score : Option ℤ
  risk_delta : Option ℤ
  change_summary : Option String

/-- The phase list of `run_pipeline`:
`_safe_phase_order(sorted(df["phase"].unique()))`. -/
def phases_of (rows : List Row) : List String :=
  _safe_phase_order (pySorted strLeB (rows.map (fun r => r.phase)).dedup)

/-- The per-phase loop of `run_pipeline`: phases with fewer than 8 valid
samples are skipped (`continue`), the rest produce a `PhaseOut`. -/
noncomputable def outs_of (rows : List Row) (fft_ok : Bool)
    (hbp : String → List (ℕ × ℚ)) : List PhaseOut :=
  (phases_of rows).filterMap (fun p =>
    let sig := sig_of rows p
    if sig.length < 8 then none else some (phase_out fft_ok hbp p sig))

/-- The facility aggregation of `run_pipeline`:
`int(round(float(np.mean(per_phase_scores)))) if per_phase_scores else 0`. -/
def facility_of (scores : List ℤ) : ℤ :=
  if scores.isEmpty then 0 else pyRound (listMeanQ (List.map (fun z : ℤ => (z : ℚ)) scores))

/-- `run_pipeline` from `harmonic_hunter/main.py` (lines 154-348), from the
cleaned table to the report fields.

* `harms_by_phase` is the output of `per_phase_harmonics` (the FFT engine,
  an independent component); it is consulted only when `fft_ok`, exactly as
  in the source (`per_phase_harmonics(...) if fft_ok else {}`).
* `baseline` is `None` when no baseline CSV is given; otherwise the outcome
  of the baseline sub-pipeline
  (`load_csv → normalize_timeseries → _validate_and_clean →
  _compute_facility_score`), which either returns a baseline facility score
  or raises — the surrounding `try/except` is the `match`. -/
noncomputable def run_report (rows : List Row) (fundamental_hz : ℚ)
    (harms_by_phase : String → List (ℕ × ℚ)) (full : Bool)
    (baseline : Option (Except String ℤ)) : Report :=
  let sample_rate_hz := estimate_sample_rate (rows.map (fun r => r.timestamp))
  let fft_ok := fft_is_valid sample_rate_hz fundamental_hz
  let report_mode := if fft_ok then "Waveform FFT Mode" else "Trend Risk Mode (Log Cadence)"
  let hbp := if fft_ok then harms_by_phase else fun _ => []
  let outs := outs_of rows fft_ok hbp
  let per_phase_scores := outs.map (fun o => o.risk.score_0_100)
  let findings_all := outs.flatMap (fun o => o.risk.findings.map (fun f => (o.phase, f)))
  let top_risks_all := outs.flatMap (fun o =>
    o.risk.top_risks.map (fun r => "Phase " ++ o.phase ++ ": " ++ r))
  let recs_raw := outs.flatMap (fun o => o.recs)
  let facility_score : ℤ := facility_of per_phase_scores
  let band := _band_from_score facility_score
  let executive_verdict := _exec_verdict facility_score
  let why_lines :=
    ["Observed current behavior reflects non-linear electrical loading patterns.",
      "Phase-level variability suggests uneven load distribution across monitored circuits."]
  let recs_all := dedupe_preserve_order recs_raw
  let top_risks := (dedupe_preserve_order top_risks_all).take 4
  let summary_lines :=
    Line.facility facility_score band ::
    Line.samplingRate sample_rate_hz ::
    Line.analysisMode report_mode ::
    (outs.map (fun o => o.line) ++
      (findings_all.take (if full then 18 else 6)).map (fun pf => Line.phaseFinding pf.1 pf.2))
  let bl : Option ℤ × Option ℤ × Option String :=
    match baseline with
    | none => (none, none, none)
    | some (Except.error _) => (none, none, none)
    | some (Except.ok b) =>
        let d := facility_score - b
        (some b, some d,
          some (if 0 < d then
              "Overall risk increased from " ++ toString b ++ " → " ++
                toString facility_score ++ " (Δ +" ++ toString d ++ ")."
            else if d < 0 then
              "Overall risk decreased from " ++ toString b ++ " → " ++
                toString facility_score ++ " (Δ " ++ toString d ++ ")."
            else
              "Overall risk is unchanged at " ++ toString facility_score ++ "/100."))
  { report_mode := report_mode
    sample_rate_hz := sample_rate_hz
    fft_ok := fft_ok
    summary_lines := summary_lines
    findings_all := findings_all
    top_risks := top_risks
    key_observations :=
      if top_risks.isEmpty then ["No critical risk indicators identified."] else top_risks
    recs_all := recs_all
    recommendations := recs_all.take 10
    per_phase_scores := per_phase_scores
    facility_score := facility_score
    band := band
    executive_verdict := executive_verdict
    why_lines := why_lines
    baseline_score := bl.1
    risk_delta := bl.2.1
    change_summary := bl.2.2 }

/-! ## Substring search (for checking what the report can say) -/

def isPrefixCharsB : List Char → List Char → Bool
  | [], _ => true
  | _ :: _, [] => false
  | c :: cs, d :: ds => (c == d) && isPrefixCharsB cs ds

/-- `pat` occurs as a contiguous substring of `s` (over char lists). -/
def containsSubB (pat : List Char) : List Char → Bool
  | [] => pat.isEmpty
  | c :: cs => isPrefixCharsB pat (c :: cs) || containsSubB pat cs

/-- Every string the report can surface: the report fields that are strings
or lists of strings, the textual pieces of every summary line, and the
phase prefixes and template fragments of every finding. -/
def Report.allStrings (r : Report) : List String :=
  r.report_mode :: r.band :: r.executive_verdict ::
    (r.why_lines ++ r.summary_lines.flatMap Line.strings ++
      r.findings_all.flatMap (fun pf => pf.1 :: pf.2.fragments) ++
      r.top_risks ++ r.key_observations ++ r.recs_all ++ r.recommendations ++
      (match r.change_summary with | none => [] | some s => [s]))

/-! ## ingest/csv_loader.py — the known-template path of `load_csv`

The raw file is a list of named columns of cells; a cell is `none` when the
CSV parse produced NaN.  The two value parsers that `load_csv` delegates to
the pandas library — `pd.to_datetime` with inference, and `pd.to_numeric`
with `errors="coerce"` — are taken as parameters (`parse_ts`, `to_num`);
everything the source itself does around them (column-name cleanup, the
missing-column check, `_coerce_current`'s string preprocessing, the Excel
serial fallback, the phase-column handling, dropna/sort/empty-check) is
embedded from the source. -/

/-- `ColumnMap` dataclass from `harmonic_hunter/ingest/csv_loader.py`. -/
structure ColumnMap where
  timestamp : String
  current_a : String
  phase : Option String := none

/-- `KNOWN_MAPS` from `harmonic_hunter/ingest/csv_loader.py`. -/
def KNOWN_MAPS : String → Option ColumnMap
  | "default" => some ⟨"timestamp", "current_a", some "phase"⟩
  | "apc_like" => some ⟨"Time", "Current", some "Phase"⟩
  | "vertiv_like" => some ⟨"Timestamp", "I(A)", some "Phase"⟩
  | "eaton_like" => some ⟨"Date/Time", "Current (A)", some "Phase"⟩
  | _ => none

/-- The errors `load_csv` raises (each a `ValueError` in the source). -/
inductive LoadError where
  | unknownMap (map_name : String)
  | missingColumns (map_name : String) (missing : List String)
  | noValidRows (columns : List String)
  deriving DecidableEq, Repr

/-- Python `str.strip()`: remove leading and trailing whitespace
(structurally, over the char list). -/
def pyStrip (s : String) : String :=
  String.mk (((s.data.dropWhile Char.isWhitespace).reverse.dropWhile Char.isWhitespace).reverse)

def isPrefixCI : List Char → List Char → Bool
  | [], _ => true
  | _ :: _, [] => false
  | c :: cs, d :: ds => (c.toLower == d.toLower) && isPrefixCI cs ds

/-- Worker for replace-all-occurrences: at each position, if the pattern
matches (per `isPre`), emit the replacement and skip the pattern length,
else keep the char and continue.  The fuel argument (initially the list
length) only makes the recursion structural; each step consumes at least
one character, so the fuel never runs out. -/
def goReplace (isPre : List Char → List Char → Bool) (pat rep : List Char) :
    ℕ → List Char → List Char
  | 0, l => l
  | _ + 1, [] => []
  | fuel + 1, c :: cs =>
      if pat ≠ [] ∧ isPre pat (c :: cs) then
        rep ++ goReplace isPre pat rep fuel ((c :: cs).drop pat.length)
      else c :: goReplace isPre pat rep fuel cs

/-- Case-sensitive `str.replace(pat, rep)` (all occurrences), over char
lists. -/
def replaceAll (pat rep : List Char) (l : List Char) : List Char :=
  goReplace isPrefixCharsB pat rep l.length l

/-- Case-insensitive `str.replace(pat, "", case=False)` (all occurrences),
over char lists. -/
def removeAllCI (pat : List Char) (l : List Char) : List Char :=
  goReplace isPrefixCI pat [] l.length l

/-- pandas `.astype(str)` on one cell: a missing value becomes the literal
string `"nan"`. -/
def astype_str (c : Option String) : Option String :=
  some (match c with | none => "nan" | some s => s)

/-- pandas `.fillna(default)` on one cell. -/
def fillna (default : String) (c : Option String) : Option String :=
  some (c.getD default)

/-- The phase-label cleanup of `load_csv`
(`.str.replace("phase", "", case=False).str.strip()`). -/
def cleanPhase (s : String) : String :=
  pyStrip (String.mk (removeAllCI ("phase".data) s.data))

/-- `_coerce_current` from `harmonic_hunter/ingest/csv_loader.py` on one
cell: `astype(str).strip()`, commas to periods, the unit tokens `"A"` and
`"amps"` removed, stripped again, then `pd.to_numeric(errors="coerce")`
(the parameter `to_num`). -/
def coerce_current_cell (to_num : String → Option ℚ) (c : Option String) : Option ℚ :=
  let s0 := (astype_str c).getD ("")
  let s1 := pyStrip s0
  let s2 := String.mk (replaceAll (",".data) (".".data) s1.data)
  let s3 := String.mk (replaceAll ("A".data) [] s2.data)
  let s4 := String.mk (replaceAll ("amps".data) [] s3.data)
  to_num (pyStrip s4)

/-- `_parse_timestamp` from `harmonic_hunter/ingest/csv_loader.py` on a
column: flexible parse (`parse_ts`); if every value failed, fall back to
Excel serial day-counts (days since the 1899-12-30 anchor, converted to
seconds from that anchor). -/
def parse_timestamp_col (parse_ts to_num : String → Option ℚ)
    (cells : List (Option String)) : List (Option ℚ) :=
  let ts := cells.map (fun c => c.bind parse_ts)
  if ts.all (fun o => o.isNone) then
    let num := cells.map (fun c => c.bind to_num)
    if num.any (fun o => o.isSome) then num.map (fun o => o.map (fun d => d * 86400))
    else ts
  else ts

/-- The known-template path of `load_csv` from
`harmonic_hunter/ingest/csv_loader.py` (`map_name` not `"auto"`): strip
column names, look the template up, fail if the template's timestamp or
current column is absent, parse the two value columns, attach the phase
column (cleaned) when the template names one and the file has it — the
configured default label `"A"` otherwise — then drop rows with missing
timestamp or current, sort by timestamp, and fail if no rows remain. -/
def load_csv_mapped (map_name : String)
    (tbl : List (String × List (Option String)))
    (parse_ts to_num : String → Option ℚ) : Except LoadError (List Row) :=
  let cols := tbl.map (fun c => (pyStrip c.1, c.2))
  let colNames := cols.map (fun c => c.1)
  match KNOWN_MAPS map_name with
  | none => Except.error (.unknownMap map_name)
  | some cmap =>
    let missing := [cmap.timestamp, cmap.current_a].filter (fun c => ¬ colNames.contains c)
    if missing ≠ [] then Except.error (.missingColumns map_name missing)
    else
      let tsCells := ((cols.lookup cmap.timestamp).getD [])
      let curCells := ((cols.lookup cmap.current_a).getD [])
      let ts := parse_timestamp_col parse_ts to_num tsCells
      let cur := curCells.map (coerce_current_cell to_num)
      let phase : List String :=
        match cmap.phase with
        | some pc =>
            if colNames.contains pc then
              ((cols.lookup pc).getD []).map
                (fun c => cleanPhase ((fillna ("A") (astype_str c)).getD ""))
            else List.replicate ts.length ("A")
        | none => List.replicate ts.length ("A")
      let rows := ((ts.zip cur).zip phase).filterMap (fun rc =>
        match rc.1.1, rc.1.2 with
        | some t, some a => some (⟨t, rc.2, a⟩ : Row)
        | _, _ => none)
      let rows := pySorted (fun r s => r.timestamp ≤ s.timestamp) rows
      if rows = [] then Except.error (.noValidRows colNames)
      else Except.ok rows

/-! ### Concrete ingest fixtures

`exParse` stands in for the two pandas parsers (`pd.to_datetime` /
`pd.to_numeric`) on the small digit-string inputs used below. -/

def exParse : String → Option ℚ
  | "1" => some 1
  | "2" => some 2
  | "3" => some 3
  | _ => none

/-- A file with the apc_like timestamp and current columns but no phase
column. -/
def exTblNoPhase : List (String × List (Option String)) :=
  [("Time", [some ("1"), some ("2"), some ("3")]),
    ("Current", [some ("1"), some ("2"), some ("3")])]

/-- A file with an apc_like phase column containing a missing (NaN) cell. -/
def exTblNanPhase : List (String × List (Option String)) :=
  [("Time", [some ("1"), some ("2"), some ("3")]),
    ("Current", [some ("1"), some ("2"), some ("3")]),
    ("Phase", [none, some ("Phase A"), some ("B")])]

/-- A file lacking the apc_like current column. -/
def exTblMissingCur : List (String × List (Option String)) :=
  [("Time", [some ("1")])]

instance {ε σ : Type} [DecidableEq ε] [DecidableEq σ] :
    DecidableEq (Except ε σ) := fun a b =>
  match a, b with
  | .ok a, .ok b =>
      if h : a = b then isTrue (by rw [h]) else isFalse (by simp [h])
  | .error a, .error b =>
      if h : a = b then isTrue (by rw [h]) else isFalse (by simp [h])
  | .ok _, .error _ => isFalse (by simp)
  | .error _, .ok _ => isFalse (by simp)

/-! ### Concrete pipeline fixtures

`exRowsSkip`: one phase with only 3 samples (below the 8-sample minimum),
so no phase is scorable.  `exRowsTrend`: two phases of 8 samples each at
1 Hz (trend mode), whose signal `[5,1,1,1,1,1,1,1]` has crest factor
exactly 5/2 (warn) and variability ≈ 88% (critical). -/

def exRowsSkip : List Row := [⟨0, "A", 1⟩, ⟨1, "A", 2⟩, ⟨2, "A", 3⟩]

def exSigWarn : List ℚ := [5, 1, 1, 1, 1, 1, 1, 1]

def exRowsTrend : List Row :=
  [⟨0, "A", 5⟩, ⟨1, "A", 1⟩, ⟨2, "A", 1⟩, ⟨3, "A", 1⟩,
    ⟨4, "A", 1⟩, ⟨5, "A", 1⟩, ⟨6, "A", 1⟩, ⟨7, "A", 1⟩,
    ⟨8, "B", 5⟩, ⟨9, "B", 1⟩, ⟨10, "B", 1⟩, ⟨11, "B", 1⟩,
    ⟨12, "B", 1⟩, ⟨13, "B", 1⟩, ⟨14, "B", 1⟩, ⟨15, "B", 1⟩]

/-! ### Definitional projections of `run_report` (shared helper lemmas) -/

theorem rr_report_mode (rows : List Row) (f : ℚ) (h : String → List (ℕ × ℚ))
    (fl : Bool) (b : Option (Except String ℤ)) :
    (run_report rows f h fl b).report_mode =
      if fft_is_valid (estimate_sample_rate (rows.map (fun r => r.timestamp))) f
      then "Waveform FFT Mode" else "Trend Risk Mode (Log Cadence)" := rfl

theorem rr_per_phase_scores (rows : List Row) (f : ℚ) (h : String → List (ℕ × ℚ))
    (fl : Bool) (b : Option (Except String ℤ)) :
    (run_report rows f h fl b).per_phase_scores =
      (outs_of rows (fft_is_valid (estimate_sample_rate (rows.map (fun r => r.timestamp))) f)
        (if fft_is_valid (estimate_sample_rate (rows.map (fun r => r.timestamp))) f
          then h else fun _ => [])).map (fun o => o.risk.score_0_100) := rfl

theorem rr_facility_score (rows : List Row) (f : ℚ) (h : String → List (ℕ × ℚ))
    (fl : Bool) (b : Option (Except String ℤ)) :
    (run_report rows f h fl b).facility_score =
      facility_of ((run_report rows f h fl b).per_phase_scores) := rfl

theorem rr_top_risks (rows : List Row) (f : ℚ) (h : String → List (ℕ × ℚ))
    (fl : Bool) (b : Option (Except String ℤ)) :
    (run_report rows f h fl b).top_risks =
      (dedupe_preserve_order
        ((outs_of rows (fft_is_valid (estimate_sample_rate (rows.map (fun r => r.timestamp))) f)
          (if fft_is_valid (estimate_sample_rate (rows.map (fun r => r.timestamp))) f
            then h else fun _ => [])).flatMap (fun o =>
              o.risk.top_risks.map (fun r => "Phase " ++ o.phase ++ ": " ++ r)))).take 4 := rfl

/-! # Theorems -/

/-- **C1.** The band is a pure function of the final integer score, for the
per-phase `RiskResult`s of both scoring modes (at any ordered-field
instantiation) and for the facility-level summary, and the mapping is:
score ≤ 30 → Safe, ≤ 60 → Monitor, ≤ 80 → Action Required,
> 80 → Immediate Risk; in particular 30 ↦ Safe, 60 ↦ Monitor,
80 ↦ Action Required, 81 ↦ Immediate Risk, 0 ↦ Safe.  (`_band` in
`scoring.py` and `_band_from_score` in `main.py` are the same function.) -/
theorem C1_band_is_pure_function_of_score :
    (∀ s : ℤ, _band s =
      if s ≤ 30 then "Safe" else if s ≤ 60 then "Monitor"
      else if s ≤ 80 then "Action Required" else "Immediate Risk") ∧
    _band_from_score = _band ∧
    (∀ (α : Type) (_ : LinearOrderedField α) (_ : ∀ a b : α, Decidable (a ≤ b))
        (thd triplen fifth_pct : α),
      (score_risk_fft thd triplen fifth_pct).band =
        _band (score_risk_fft thd triplen fifth_pct).score_0_100) ∧
    (∀ (α : Type) (_ : LinearOrderedField α) (_ : ∀ a b : α, Decidable (a ≤ b))
        (crest variability : α),
      (score_risk_trend crest variability).band =
        _band (score_risk_trend crest variability).score_0_100) ∧
    (∀ rows fundamental_hz harms_by_phase full baseline,
      (run_report rows fundamental_hz harms_by_phase full baseline).band =
        _band_from_score
          (run_report rows fundamental_hz harms_by_phase full baseline).facility_score) ∧
    _band 30 = "Safe" ∧ _band 60 = "Monitor" ∧ _band 80 = "Action Required" ∧
    _band 81 = "Immediate Risk" ∧ _band 0 = "Safe" := by
  refine ⟨fun s => rfl, rfl, fun α _ _ thd triplen fifth => rfl,
    fun α _ _ crest variability => rfl, fun rows f h fl b => rfl,
    rfl, rfl, rfl, rfl, rfl⟩

/-- **C2.** `score_risk_fft` returns the sum of the three independent
contributions (THD: 40/25/10 at the 20/15 thresholds; triplen: 35/20/8 at
30/20; 5th: 25/15/5 at 15/12) clamped to at most 100, and both scorers
always return an integer in [0, 100] — at any ordered-field
instantiation, so in particular for the real-valued pipeline metrics. -/
theorem C2_fft_score_sum_and_boundedness :
    ∀ (α : Type) (_ : LinearOrderedField α) (_ : ∀ a b : α, Decidable (a ≤ b)),
    (∀ thd triplen fifth_pct : α,
      (score_risk_fft thd triplen fifth_pct).score_0_100 =
        min 100
          ((if 20 ≤ thd then 40 else if 15 ≤ thd then 25 else 10)
            + (if 30 ≤ triplen then 35 else if 20 ≤ triplen then 20 else 8)
            + (if 15 ≤ fifth_pct then 25 else if 12 ≤ fifth_pct then 15 else 5)) ∧
      0 ≤ (score_risk_fft thd triplen fifth_pct).score_0_100 ∧
      (score_risk_fft thd triplen fifth_pct).score_0_100 ≤ 100) ∧
    (∀ crest variability : α,
      0 ≤ (score_risk_trend crest variability).score_0_100 ∧
      (score_risk_trend crest variability).score_0_100 ≤ 100) := by
  intro α instF instD
  constructor
  · intro thd triplen fifth
    refine ⟨?_, ?_, ?_⟩
    · simp only [score_risk_fft, THRESHOLDS.THD_CRITICAL, THRESHOLDS.THD_WARN,
        THRESHOLDS.TRIPLEN_CRITICAL, THRESHOLDS.TRIPLEN_WARN,
        THRESHOLDS.FIFTH_CRITICAL, THRESHOLDS.FIFTH_WARN, ge_iff_le, Rat.cast_ofNat]
      split_ifs <;> rfl
    · simp only [score_risk_fft]
      split_ifs <;> norm_num
    · simp only [score_risk_fft]
      split_ifs <;> norm_num
  · intro crest variability
    constructor
    · simp only [score_risk_trend]
      split_ifs <;> norm_num
    · simp only [score_risk_trend]
      split_ifs <;> norm_num

/-- **C3.** `fft_is_valid sample_rate_hz fundamental_hz` holds iff
`sample_rate_hz ≥ 20 × fundamental_hz`; exact equality is valid; and in
the pipeline this single decision selects the waveform-FFT report mode
when true and the trend report mode otherwise. -/
theorem C3_mode_decision :
    (∀ sample_rate_hz fundamental_hz : ℚ,
      fft_is_valid sample_rate_hz fundamental_hz = true ↔
        20 * fundamental_hz ≤ sample_rate_hz) ∧
    (∀ fundamental_hz : ℚ, fft_is_valid (20 * fundamental_hz) fundamental_hz = true) ∧
    (∀ rows fundamental_hz harms_by_phase full baseline,
      ((run_report rows fundamental_hz harms_by_phase full baseline).report_mode =
          "Waveform FFT Mode" ↔
        fft_is_valid (estimate_sample_rate (rows.map (fun r => r.timestamp)))
          fundamental_hz = true) ∧
      ((run_report rows fundamental_hz harms_by_phase full baseline).report_mode =
          "Trend Risk Mode (Log Cadence)" ↔
        ¬ fft_is_valid (estimate_sample_rate (rows.map (fun r => r.timestamp)))
          fundamental_hz = true)) := by
  refine ⟨fun sr f => by simp [fft_is_valid, ge_iff_le], fun f => by simp [fft_is_valid], ?_⟩
  intro rows f h fl b
  rw [rr_report_mode]
  cases hv : fft_is_valid (estimate_sample_rate (rows.map (fun r => r.timestamp))) f <;>
    simp [hv]

/-- **C5.** Every metric guards near-zero division with the fixed epsilon
`1e-12` and returns exactly 0 in the degenerate case: `thd_percent`,
`triplen_index_percent` and the 5th-harmonic ratio whenever the
fundamental amplitude `amp[1] ≤ 1e-12`; `crest_factor` for an empty signal
or RMS ≤ 1e-12; `current_variability_percent` for an empty signal or
|mean| ≤ 1e-12.  (In the `ℝ`-valued embedding the functions are total, so
no NaN/Infinity can arise; the guards below are the exact source
conditions.) -/
theorem C5_division_guards :
    (∀ harmonics : List (ℕ × ℚ),
      (harmonics.lookup 1).getD 0 ≤ 1e-12 → thd_percent harmonics = 0) ∧
    (∀ harmonics : List (ℕ × ℚ),
      (harmonics.lookup 1).getD 0 ≤ 1e-12 → triplen_index_percent harmonics = 0) ∧
    (∀ harmonics : List (ℕ × ℚ),
      (harmonics.lookup 1).getD 0 ≤ 1e-12 → fifth_pct_of harmonics = 0) ∧
    (∀ signal : List ℚ,
      signal = [] ∨
        Real.sqrt ((listMeanQ (signal.map (fun x => x * x)) : ℚ) : ℝ) ≤ 1e-12 →
      crest_factor signal = 0) ∧
    (∀ signal : List ℚ,
      signal = [] ∨ |listMeanQ signal| ≤ 1e-12 →
      current_variability_percent signal = 0) := by
  refine ⟨fun h hle => by simp [thd_percent, hle],
    fun h hle => by simp [triplen_index_percent, hle],
    fun h hle => by simp [fifth_pct_of, hle], ?_, ?_⟩
  · intro signal hcase
    rcases hcase with hs | hrms
    · simp [crest_factor, hs]
    · by_cases hs : signal = []
      · simp [crest_factor, hs]
      · simp only [crest_factor, hs, if_false]
        rw [if_pos hrms]
  · intro signal hcase
    rcases hcase with hs | hm
    · simp [current_variability_percent, hs]
    · by_cases hs : signal = []
      · simp [current_variability_percent, hs]
      · simp only [current_variability_percent, hs, if_false]
        rw [if_pos hm]

/-- Witness for C5 at concrete degenerate inputs: a spectrum with no
fundamental entry, the empty signal, and a zero-mean signal. -/
theorem C5_division_guards_witness :
    thd_percent [(3, 5)] = 0 ∧ triplen_index_percent [(3, 5)] = 0 ∧
    fifth_pct_of [(3, 5)] = 0 ∧ crest_factor [] = 0 ∧
    current_variability_percent [1, -1] = 0 :=
  ⟨C5_division_guards.1 [(3, 5)] (by simp [List.lookup]; norm_num),
    C5_division_guards.2.1 [(3, 5)] (by simp [List.lookup]; norm_num),
    C5_division_guards.2.2.1 [(3, 5)] (by simp [List.lookup]; norm_num),
    C5_division_guards.2.2.2.1 [] (Or.inl rfl),
    C5_division_guards.2.2.2.2 [1, -1] (Or.inr (by norm_num [listMeanQ]))⟩

/-- **C6.** A failing baseline sub-pipeline (any raised error `e`) never
affects the primary run: the report equals the report of a run with no
baseline at all — every primary field is still produced — and the
baseline score, delta and change-summary fields stay `none`. -/
theorem C6_baseline_failure_isolated :
    ∀ (rows : List Row) (fundamental_hz : ℚ)
      (harms_by_phase : String → List (ℕ × ℚ)) (full : Bool) (e : String),
      run_report rows fundamental_hz harms_by_phase full (some (Except.error e)) =
        run_report rows fundamental_hz harms_by_phase full none ∧
      (run_report rows fundamental_hz harms_by_phase full
          (some (Except.error e))).baseline_score = none ∧
      (run_report rows fundamental_hz harms_by_phase full
          (some (Except.error e))).risk_delta = none ∧
      (run_report rows fundamental_hz harms_by_phase full
          (some (Except.error e))).change_summary = none := by
  intro rows f h fl e
  exact ⟨rfl, rfl, rfl, rfl⟩

/-! ### Lower bounds on the scorers (shared helper lemmas) -/

theorem score_risk_fft_ge_23 {α : Type} [LinearOrderedField α]
    [∀ a b : α, Decidable (a ≤ b)] (thd triplen fifth_pct : α) :
    23 ≤ (score_risk_fft thd triplen fifth_pct).score_0_100 := by
  simp only [score_risk_fft]
  split_ifs <;> norm_num

theorem score_risk_trend_ge_25 {α : Type} [LinearOrderedField α]
    [∀ a b : α, Decidable (a ≤ b)] (crest variability : α) :
    25 ≤ (score_risk_trend crest variability).score_0_100 := by
  simp only [score_risk_trend]
  split_ifs <;> norm_num

theorem phase_out_score_ge_23 (fft_ok : Bool) (hbp : String → List (ℕ × ℚ))
    (p : String) (sig : List ℚ) :
    23 ≤ (phase_out fft_ok hbp p sig).risk.score_0_100 := by
  cases fft_ok with
  | false =>
      calc (23 : ℤ) ≤ 25 := by norm_num
        _ ≤ _ := score_risk_trend_ge_25 _ _
  | true => exact score_risk_fft_ge_23 _ _ _

theorem pyRound_ge (a : ℤ) (q : ℚ) (h : (a : ℚ) ≤ q) : a ≤ pyRound q := by
  have hf : a ≤ ⌊q⌋ := Int.le_floor.mpr h
  simp only [pyRound]
  split_ifs <;> omega

theorem listMeanQ_ge (a : ℚ) (l : List ℚ) (hne : l ≠ [])
    (hall : ∀ x ∈ l, a ≤ x) : a ≤ listMeanQ l := by
  have key : ∀ (m : List ℚ), (∀ x ∈ m, a ≤ x) → a * m.length ≤ m.sum := by
    intro m
    induction m with
    | nil => intro _; simp
    | cons x xs ih =>
        intro hm
        simp only [List.sum_cons, List.length_cons]
        have h1 : a ≤ x := hm x (List.mem_cons_self x xs)
        have h2 := ih (fun y hy => hm y (List.mem_cons_of_mem x hy))
        have hc : ((xs.length + 1 : ℕ) : ℚ) = (xs.length : ℚ) + 1 := by push_cast; ring
        rw [hc, mul_add, mul_one]
        linarith
  have hlen : 0 < (l.length : ℚ) := by
    exact_mod_cast Nat.pos_of_ne_zero (fun h => hne (List.length_eq_zero.mp h))
  unfold listMeanQ
  rw [le_div_iff₀ hlen]
  exact key l hall

/-- **C9.** Both scorers have strictly positive floors: `score_risk_fft`
always returns at least 23 (= 10 + 8 + 5) and `score_risk_trend` at least
25 (= 15 + 10), at any ordered-field instantiation, so a per-phase score
of 0 is unreachable; consequently the facility score is at least 23
whenever any phase was scorable, and a facility score of 0 occurs only
when no phase was scorable. -/
theorem C9_score_floors :
    (∀ (α : Type) (_ : LinearOrderedField α) (_ : ∀ a b : α, Decidable (a ≤ b))
        (thd triplen fifth_pct : α),
      23 ≤ (score_risk_fft thd triplen fifth_pct).score_0_100 ∧
      (score_risk_fft thd triplen fifth_pct).score_0_100 ≠ 0) ∧
    (∀ (α : Type) (_ : LinearOrderedField α) (_ : ∀ a b : α, Decidable (a ≤ b))
        (crest variability : α),
      25 ≤ (score_risk_trend crest variability).score_0_100 ∧
      (score_risk_trend crest variability).score_0_100 ≠ 0) ∧
    (∀ rows fundamental_hz harms_by_phase full baseline,
      (run_report rows fundamental_hz harms_by_phase full baseline).per_phase_scores ≠ [] →
        23 ≤ (run_report rows fundamental_hz harms_by_phase full baseline).facility_score) ∧
    (∀ rows fundamental_hz harms_by_phase full baseline,
      (run_report rows fundamental_hz harms_by_phase full baseline).facility_score = 0 →
        (run_report rows fundamental_hz harms_by_phase full baseline).per_phase_scores = []) := by
  have hfac : ∀ rows (fundamental_hz : ℚ) harms_by_phase full baseline,
      (run_report rows fundamental_hz harms_by_phase full baseline).per_phase_scores ≠ [] →
        23 ≤ (run_report rows fundamental_hz harms_by_phase full baseline).facility_score := by
    intro rows f h fl b hne
    rw [rr_facility_score]
    set scores := (run_report rows f h fl b).per_phase_scores with hscores
    have hall : ∀ x ∈ scores, (23 : ℤ) ≤ x := by
      intro x hx
      rw [hscores, rr_per_phase_scores] at hx
      rcases List.mem_map.mp hx with ⟨o, ho, rfl⟩
      rcases List.mem_filterMap.mp ho with ⟨p, _, hp⟩
      by_cases hlen : (sig_of rows p).length < 8
      · simp [hlen] at hp
      · simp only [hlen, if_false] at hp
        rw [← Option.some_inj.mp hp]
        exact phase_out_score_ge_23 _ _ _ _
    unfold facility_of
    rw [if_neg (by simpa using hne)]
    refine pyRound_ge 23 _ (listMeanQ_ge 23 (List.map (fun z : ℤ => (z : ℚ)) scores) ?_ ?_)
    · intro hmap
      exact hne (by simpa using hmap)
    · intro x hx
      rcases List.mem_map.mp hx with ⟨z, hz, rfl⟩
      exact_mod_cast hall z hz
  refine ⟨fun α instF instD thd triplen fifth =>
      ⟨score_risk_fft_ge_23 thd triplen fifth, ?_⟩,
    fun α instF instD crest variability =>
      ⟨score_risk_trend_ge_25 crest variability, ?_⟩,
    hfac, ?_⟩
  · have := score_risk_fft_ge_23 thd triplen fifth
    omega
  · have := score_risk_trend_ge_25 crest variability
    omega
  · intro rows f h fl b hz
    by_contra hne
    have := hfac rows f h fl b hne
    omega

/-! ### Membership through `pySorted` (shared helper lemmas) -/

theorem mem_insert1 {β : Type} (le : β → β → Bool) (x y : β) (l : List β) :
    y ∈ insert1 le x l ↔ y = x ∨ y ∈ l := by
  induction l with
  | nil => simp [insert1]
  | cons a l ih =>
      simp only [insert1]
      split_ifs with h
      · simp
      · simp only [List.mem_cons, ih]
        tauto

theorem mem_pySorted {β : Type} (le : β → β → Bool) (y : β) (l : List β) :
    y ∈ pySorted le l ↔ y ∈ l := by
  induction l with
  | nil => simp [pySorted]
  | cons a l ih => simp [pySorted, mem_insert1, ih]

/-- **C8 (counterexample).** The apc_like template names a phase column
(`"Phase"`), the file `exTblNoPhase` does not have it — yet loading
succeeds (with the default phase label `"A"`), instead of failing with a
missing-columns error as the claim requires for "any of that template's
column names". -/
theorem C8_counterexample_phase_column_not_required :
    KNOWN_MAPS ("apc_like") = some ⟨"Time", "Current", some ("Phase")⟩ ∧
    ((exTblNoPhase.map (fun x => pyStrip x.1)).contains ("Phase")) = false ∧
    load_csv_mapped ("apc_like") exTblNoPhase exParse exParse =
      Except.ok [⟨1, "A", 1⟩, ⟨2, "A", 2⟩, ⟨3, "A", 3⟩] := by
  refine ⟨rfl, by decide, by decide⟩

/-- **C8 (amended).** For every known vendor template, loading fails with
a missing-columns error iff the template's *timestamp or current* column
is absent from the file, and the error lists exactly the absent ones of
those two.  The template's phase column is never part of this check: when
it is absent the rows are loaded with the default phase label `"A"`. -/
theorem C8_missing_columns_amended :
    ∀ (map_name : String) (cmap : ColumnMap)
      (tbl : List (String × List (Option String)))
      (parse_ts to_num : String → Option ℚ),
      KNOWN_MAPS map_name = some cmap →
      ((∃ m, load_csv_mapped map_name tbl parse_ts to_num =
          Except.error (.missingColumns map_name m)) ↔
        [cmap.timestamp, cmap.current_a].filter
          (fun c => ¬ (tbl.map (fun x => pyStrip x.1)).contains c) ≠ []) ∧
      (∀ m, load_csv_mapped map_name tbl parse_ts to_num =
          Except.error (.missingColumns map_name m) →
        m = [cmap.timestamp, cmap.current_a].filter
          (fun c => ¬ (tbl.map (fun x => pyStrip x.1)).contains c)) ∧
      (∀ pc, cmap.phase = some pc →
        (tbl.map (fun x => pyStrip x.1)).contains pc = false →
        ∀ rows, load_csv_mapped map_name tbl parse_ts to_num = Except.ok rows →
          ∀ row ∈ rows, row.phase = "A") := by
  intro map_name cmap tbl parse_ts to_num hmap
  have hcols : (tbl.map (fun c => (pyStrip c.1, c.2))).map (fun c => c.1) =
      tbl.map (fun x => pyStrip x.1) := by
    simp [List.map_map]
  simp only [load_csv_mapped, hmap, hcols]
  by_cases hmiss :
      [cmap.timestamp, cmap.current_a].filter
        (fun c => ¬ (tbl.map (fun x => pyStrip x.1)).contains c) = []
  · rw [if_neg (fun hne => hne hmiss)]
    refine ⟨?_, ?_, ?_⟩
    · constructor
      · rintro ⟨m, hm⟩
        split_ifs at hm <;> simp_all
      · intro h
        exact absurd hmiss h
    · intro m hm
      split_ifs at hm <;> simp_all
    · intro pc hpc hpcabs rows hrows row hrow
      split_ifs at hrows with hempty
      all_goals cases hrows
      rw [mem_pySorted] at hrow
      rcases List.mem_filterMap.mp hrow with ⟨⟨⟨ot, oa⟩, ph⟩, hrc, hf⟩
      have hphase : row.phase = ph := by
        rcases ot with _ | t <;> rcases oa with _ | a <;> simp at hf
        rw [← hf]
      have hmem2 := (List.of_mem_zip hrc).2
      simp only [hpc] at hmem2
      rw [if_neg (by rw [hpcabs]; exact Bool.false_ne_true)] at hmem2
      rw [hphase]
      exact List.eq_of_mem_replicate hmem2
  · rw [if_pos hmiss]
    refine ⟨?_, ?_, ?_⟩
    · exact ⟨fun _ => hmiss, fun _ => ⟨_, rfl⟩⟩
    · intro m hm
      exact ((LoadError.missingColumns.inj (Except.error.inj hm)).2).symm
    · intro pc hpc hpcabs rows hrows
      cases hrows

/-- Witness for C8 (amended) at a concrete file lacking the apc_like
current column: loading fails with a missing-columns error. -/
theorem C8_missing_columns_amended_witness :
    ∃ m, load_csv_mapped ("apc_like") exTblMissingCur exParse exParse =
      Except.error (.missingColumns ("apc_like") m) :=
  ((C8_missing_columns_amended ("apc_like") ⟨"Time", "Current", some ("Phase")⟩
      exTblMissingCur exParse exParse rfl).1).mpr (by decide)

/-- **C10.** pandas `.astype(str)` runs before `.fillna("A")`, so a
missing (NaN) phase cell becomes the literal string `"nan"` and the fill
never fires; the phase cleanup leaves `"nan"` unchanged, so such rows get
the label `"nan"`, not the default `"A"` — concretely visible in a load
whose phase column has a NaN cell.  The default `"A"` is used only when no
phase column is present (the `exTblNoPhase`-style else branch of
`load_csv_mapped`). -/
theorem C10_nan_phase_label :
    (∀ c : Option String, fillna ("A") (astype_str c) = astype_str c) ∧
    astype_str none = some ("nan") ∧
    cleanPhase "nan" = "nan" ∧ ("nan" : String) ≠ "A" ∧
    load_csv_mapped ("apc_like") exTblNanPhase exParse exParse =
      Except.ok [⟨1, "nan", 1⟩, ⟨2, "A", 2⟩, ⟨3, "B", 3⟩] := by
  exact ⟨fun c => by cases c <;> rfl, rfl, by decide, by decide, by decide⟩

theorem exRowsSkip_sample_rate :
    estimate_sample_rate (exRowsSkip.map (fun r => r.timestamp)) = 1 := by
  norm_num [estimate_sample_rate, exRowsSkip, pySorted, insert1, medianQ, List.getD]

theorem exRowsSkip_fft_invalid :
    fft_is_valid (estimate_sample_rate (exRowsSkip.map (fun r => r.timestamp))) 60 = false := by
  rw [exRowsSkip_sample_rate]
  norm_num [fft_is_valid]

theorem exRowsSkip_outs :
    outs_of exRowsSkip false (fun _ => []) = [] := by
  have hphases : phases_of exRowsSkip = ["A"] := by decide
  have hsig : sig_of exRowsSkip "A" = [1, 2, 3] := by decide
  simp [outs_of, hphases, hsig]

theorem fft_1_60_false : fft_is_valid 1 60 = false := by
  norm_num [fft_is_valid]

theorem exRowsTrend_sample_rate :
    estimate_sample_rate (exRowsTrend.map (fun r => r.timestamp)) = 1 := by
  norm_num [estimate_sample_rate, exRowsTrend, pySorted, insert1, medianQ, List.getD]

theorem exRowsTrend_phases : phases_of exRowsTrend = ["A", "B"] := by decide

theorem exRowsTrend_sigA : sig_of exRowsTrend "A" = exSigWarn := by decide

theorem exRowsTrend_sigB : sig_of exRowsTrend "B" = exSigWarn := by decide

theorem exSigWarn_crest : crest_factor exSigWarn = 5 / 2 := by
  have hne : exSigWarn ≠ [] := by decide
  have hms : listMeanQ (exSigWarn.map (fun x => x * x)) = 4 := by
    norm_num [listMeanQ, exSigWarn]
  have hsqrt : Real.sqrt ((4 : ℚ) : ℝ) = 2 := by
    rw [show ((4 : ℚ) : ℝ) = 2 ^ 2 by norm_num, Real.sqrt_sq (by norm_num)]
  have hpeak : ((exSigWarn.map (fun x => |x|)).max?).getD 0 = 5 := by
    norm_num [exSigWarn, List.max?, max_def]
  simp only [crest_factor]
  rw [if_neg hne, hms, hsqrt, if_neg (by norm_num), hpeak]
  norm_num

theorem exSigWarn_var_ge : (40 : ℝ) ≤ current_variability_percent exSigWarn := by
  have hne : exSigWarn ≠ [] := by decide
  have hmean : listMeanQ exSigWarn = 3 / 2 := by norm_num [listMeanQ, exSigWarn]
  simp only [current_variability_percent]
  rw [if_neg hne, hmean]
  rw [if_neg (by rw [abs_of_pos (by norm_num : (0 : ℚ) < 3 / 2)]; norm_num)]
  have hvar : listMeanQ (exSigWarn.map (fun x => (x - 3 / 2) ^ 2)) = 7 / 4 := by
    norm_num [listMeanQ, exSigWarn]
  rw [hvar]
  have h6 : (3 / 5 : ℝ) ≤ Real.sqrt ((7 / 4 : ℚ) : ℝ) := by
    rw [show ((7 / 4 : ℚ) : ℝ) = (7 / 4 : ℝ) by norm_num,
      Real.le_sqrt (by norm_num) (by norm_num)]
    norm_num
  have habs : |((3 / 2 : ℚ) : ℝ)| = 3 / 2 := by
    rw [show ((3 / 2 : ℚ) : ℝ) = (3 / 2 : ℝ) by norm_num]
    rw [abs_of_pos (by norm_num)]
  rw [habs]
  nlinarith [h6]

theorem trend_score_eval (v : ℝ) (hv : (40 : ℝ) ≤ v) :
    score_risk_trend (5 / 2 : ℝ) v =
      ⟨80, "Action Required",
        [.crestWarn (5 / 2), .variabilityCritical v],
        ["Elevated crest factor trend", "High variability → harmonic risk signature"]⟩ := by
  simp only [score_risk_trend, THRESHOLDS.CREST_CRITICAL, THRESHOLDS.CREST_WARN,
    THRESHOLDS.VARIABILITY_CRITICAL, THRESHOLDS.VARIABILITY_WARN, ge_iff_le]
  rw [if_neg (by push_cast; norm_num), if_pos (by push_cast; norm_num),
    if_pos (by push_cast; linarith)]
  norm_num [_band]

theorem exPhaseOut_risk (p : String) :
    (phase_out false (fun _ => []) p exSigWarn).risk =
      ⟨80, "Action Required",
        [.crestWarn (5 / 2), .variabilityCritical (current_variability_percent exSigWarn)],
        ["Elevated crest factor trend", "High variability → harmonic risk signature"]⟩ := by
  simp only [phase_out, Bool.false_eq_true, if_false]
  rw [exSigWarn_crest]
  exact trend_score_eval _ exSigWarn_var_ge

theorem exPhaseOut_phase (p : String) :
    (phase_out false (fun _ => []) p exSigWarn).phase = p := by
  simp only [phase_out, Bool.false_eq_true, if_false]

theorem exRowsTrend_outs :
    outs_of exRowsTrend false (fun _ => []) =
      [phase_out false (fun _ => []) "A" exSigWarn,
        phase_out false (fun _ => []) "B" exSigWarn] := by
  simp [outs_of, exRowsTrend_phases, exRowsTrend_sigA, exRowsTrend_sigB, exSigWarn]

/-- Full evaluation of the report for the run in which every phase has
fewer than 8 valid samples. -/
theorem exRowsSkip_report :
    run_report exRowsSkip 60 (fun _ => []) true none =
      { report_mode := "Trend Risk Mode (Log Cadence)"
        sample_rate_hz := 1
        fft_ok := false
        summary_lines :=
          [.facility 0 "Safe", .samplingRate 1,
            .analysisMode "Trend Risk Mode (Log Cadence)"]
        findings_all := []
        top_risks := []
        key_observations := ["No critical risk indicators identified."]
        recs_all := []
        recommendations := []
        per_phase_scores := []
        facility_score := 0
        band := "Safe"
        executive_verdict :=
          "No immediate power-quality risk detected. Observed load behavior is consistent with stable operation."
        why_lines :=
          ["Observed current behavior reflects non-linear electrical loading patterns.",
            "Phase-level variability suggests uneven load distribution across monitored circuits."]
        baseline_score := none
        risk_delta := none
        change_summary := none } := by
  simp [run_report, exRowsSkip_sample_rate, fft_1_60_false, exRowsSkip_outs,
    facility_of, _band_from_score, _exec_verdict, dedupe_preserve_order, dedupe_go]

/-- **C4 (counterexample).** In a run where every phase is excluded for
having fewer than 8 valid samples, the facility score does default to 0
(band Safe) — but no string the report can surface contains the flag
"no scorable phases": the output is not flagged, contrary to the claim. -/
theorem C4_counterexample_no_scorable_phases_flag_missing :
    (run_report exRowsSkip 60 (fun _ => []) true none).per_phase_scores = [] ∧
    (run_report exRowsSkip 60 (fun _ => []) true none).facility_score = 0 ∧
    (run_report exRowsSkip 60 (fun _ => []) true none).band = "Safe" ∧
    ((run_report exRowsSkip 60 (fun _ => []) true none).allStrings.all
      (fun s => !(containsSubB ("no scorable phases".data) s.data))) = true := by
  rw [exRowsSkip_report]
  refine ⟨rfl, rfl, rfl, by decide⟩

theorem outs_of_eq_filter (rows : List Row) (fft_ok : Bool)
    (hbp : String → List (ℕ × ℚ)) :
    outs_of rows fft_ok hbp =
      ((phases_of rows).filter (fun p => ¬ (sig_of rows p).length < 8)).map
        (fun p => phase_out fft_ok hbp p (sig_of rows p)) := by
  unfold outs_of
  generalize phases_of rows = l
  induction l with
  | nil => simp
  | cons p l ih =>
      simp only [List.filterMap_cons, List.filter_cons]
      by_cases h : (sig_of rows p).length < 8
      · simp [h, ih]
      · simp [h, ih]

/-- **C4 (amended).** The per-phase scores are exactly the scores of the
phases with at least 8 valid samples (phases below the threshold are
skipped without aborting — the pipeline is a total function); the facility
score is the arithmetic mean of those scores rounded to the nearest
integer (half to even, Python `round`); and when every phase is excluded
the facility score is 0 — with no special "no scorable phases" flag in the
output. -/
theorem C4_facility_aggregation_amended :
    ∀ (rows : List Row) (fundamental_hz : ℚ)
      (harms_by_phase : String → List (ℕ × ℚ)) (full : Bool)
      (baseline : Option (Except String ℤ)),
      ((run_report rows fundamental_hz harms_by_phase full baseline).per_phase_scores =
        ((phases_of rows).filter (fun p => ¬ (sig_of rows p).length < 8)).map
          (fun p => (phase_out
            (fft_is_valid (estimate_sample_rate (rows.map (fun r => r.timestamp)))
              fundamental_hz)
            (if fft_is_valid (estimate_sample_rate (rows.map (fun r => r.timestamp)))
                fundamental_hz
              then harms_by_phase else fun _ => []) p
            (sig_of rows p)).risk.score_0_100)) ∧
      ((run_report rows fundamental_hz harms_by_phase full baseline).per_phase_scores ≠ [] →
        (run_report rows fundamental_hz harms_by_phase full baseline).facility_score =
          pyRound (listMeanQ (List.map (fun z : ℤ => (z : ℚ))
            (run_report rows fundamental_hz harms_by_phase full baseline).per_phase_scores))) ∧
      ((run_report rows fundamental_hz harms_by_phase full baseline).per_phase_scores = [] →
        (run_report rows fundamental_hz harms_by_phase full baseline).facility_score = 0) := by
  intro rows f h fl b
  refine ⟨?_, ?_, ?_⟩
  · rw [rr_per_phase_scores, outs_of_eq_filter, List.map_map]
    rfl
  · intro hne
    rw [rr_facility_score]
    unfold facility_of
    rw [if_neg (by simpa using hne)]
  · intro hempty
    rw [rr_facility_score, hempty]
    rfl

/-- Witness for C4 (amended): the two-phase trend run has a nonempty score
list and its facility score is the rounded mean; the skip run has no
scorable phase and facility score 0. -/
theorem C4_facility_aggregation_amended_witness :
    (run_report exRowsTrend 60 (fun _ => []) true none).facility_score =
      pyRound (listMeanQ (List.map (fun z : ℤ => (z : ℚ))
        (run_report exRowsTrend 60 (fun _ => []) true none).per_phase_scores)) ∧
    (run_report exRowsSkip 60 (fun _ => []) true none).facility_score = 0 := by
  constructor
  · refine (C4_facility_aggregation_amended exRowsTrend 60 (fun _ => []) true none).2.1 ?_
    rw [rr_per_phase_scores, exRowsTrend_sample_rate, fft_1_60_false]
    simp [exRowsTrend_outs]
  · refine (C4_facility_aggregation_amended exRowsSkip 60 (fun _ => []) true none).2.2 ?_
    rw [rr_per_phase_scores, exRowsSkip_sample_rate, fft_1_60_false]
    simp [exRowsSkip_outs]

/-- **C7 (counterexample).** In the two-phase trend run each phase
contributes two top-risk tags; after the phase prefixes are attached and
the facility aggregation dedupes, the facility-level top-risk list is
truncated with `[:4]`, not `[:3]` — it retains 4 tags, contradicting "at
most 3" for the aggregated list. -/
theorem C7_counterexample_facility_top_risks_has_4 :
    (run_report exRowsTrend 60 (fun _ => []) true none).top_risks =
      ["Phase A: Elevated crest factor trend",
        "Phase A: High variability → harmonic risk signature",
        "Phase B: Elevated crest factor trend",
        "Phase B: High variability → harmonic risk signature"] ∧
    (run_report exRowsTrend 60 (fun _ => []) true none).top_risks.length = 4 := by
  have htop : (run_report exRowsTrend 60 (fun _ => []) true none).top_risks =
      ["Phase A: Elevated crest factor trend",
        "Phase A: High variability → harmonic risk signature",
        "Phase B: Elevated crest factor trend",
        "Phase B: High variability → harmonic risk signature"] := by
    rw [rr_top_risks, exRowsTrend_sample_rate, fft_1_60_false]
    simp only [Bool.false_eq_true, if_false]
    rw [exRowsTrend_outs]
    simp only [List.flatMap_cons, List.flatMap_nil, exPhaseOut_risk, exPhaseOut_phase,
      List.append_nil]
    decide
  exact ⟨htop, by rw [htop]; rfl⟩

/-- **C7 (amended).** Every `RiskResult` produced by either scorer carries
at most 3 top-risk tags (`top[:3]`, insertion order preserved); the
aggregated facility-level list, however, is truncated to at most **4**
tags (`dedupe_preserve_order(...)[:4]`), not 3. -/
theorem C7_top_risks_amended :
    (∀ (α : Type) (_ : LinearOrderedField α) (_ : ∀ a b : α, Decidable (a ≤ b))
        (thd triplen fifth_pct : α),
      (score_risk_fft thd triplen fifth_pct).top_risks.length ≤ 3) ∧
    (∀ (α : Type) (_ : LinearOrderedField α) (_ : ∀ a b : α, Decidable (a ≤ b))
        (crest variability : α),
      (score_risk_trend crest variability).top_risks.length ≤ 3) ∧
    (∀ rows fundamental_hz harms_by_phase full baseline,
      (run_report rows fundamental_hz harms_by_phase full baseline).top_risks.length ≤ 4) := by
  refine ⟨?_, ?_, ?_⟩
  · intro α instF instD thd triplen fifth
    simp only [score_risk_fft]
    simp [List.length_take]
  · intro α instF instD crest variability
    simp only [score_risk_trend]
    simp [List.length_take]
  · intro rows f h fl b
    rw [rr_top_risks]
    simp [List.length_take]

/-- Witness for C9: the two-phase trend run has a nonempty per-phase score
list, so its facility score is at least 23 (it is in fact 80). -/
theorem C9_score_floors_witness :
    23 ≤ (run_report exRowsTrend 60 (fun _ => []) true none).facility_score := by
  refine C9_score_floors.2.2.1 exRowsTrend 60 (fun _ => []) true none ?_
  rw [rr_per_phase_scores, exRowsTrend_sample_rate, fft_1_60_false]
  simp [exRowsTrend_outs]

end HarmonicHunter
